import Mathlib

/-!
Shallow embedding of the attendify-backend ownership / uniqueness /
relationship-reconciliation engine.

The embedding follows the JavaScript sources:
* `course.service.js`  (src/unnamed/part_016)
* `course.model.js`    (src/unnamed/part_011)
* `student.service.js` (src/src/services/student.service.js)
* `student.model.js`   (src/src/models/student.model.js)
* `schedule.model.js`  (src/src/models/schedule.model.js)
* `STUDENT_COURSE_TABLE.sql` and the COURSE_SCHEDULE schema (src/unnamed/part_005)
  for the ON DELETE CASCADE behaviour of the junction / schedule tables.

The relational store is modelled as lists of rows.  JavaScript `undefined`
versus `null` on update payloads is modelled with nested options:
`none` = field absent (undefined), `some none` = explicit null,
`some (some v)` = value.  Machine timestamps (`NOW()`) are passed in as a
`now : Nat` argument.  Every fallible operation returns `Except`; mutating
operations carry the database state both on success and on failure, so that
"no mutation happened before the throw" is expressible.
-/

namespace Attendify

/-- A row of the USER table (fields the engine reads). -/
structure User where
  user_id : Nat
  role : String
  university_id : Option Nat
deriving Repr, DecidableEq

/-- A row of the STUDENT table. -/
structure Student where
  student_id : Nat
  name : String
  surname : String
  university_id : Option Nat
  student_number : String
  department : Option String
  face_embedding : Option String
  photo_path : Option String
  created_by : Option Nat
  created_at : Nat
deriving Repr, DecidableEq

/-- A row of the COURSE table. -/
structure Course where
  course_id : Nat
  course_name : String
  course_code : String
  description : Option String
  weekly_hours : Option Nat
  academic_year : Option String
  course_category : Option String
  instructor_id : Option Nat
  room_number : Option String
  semester : Option String
deriving Repr, DecidableEq

/-- A row of the STUDENT_COURSE junction table (an enrollment link). -/
structure EnrollmentRow where
  student_id : Nat
  course_id : Nat
  created_at : Nat
deriving Repr, DecidableEq

/-- A row of the COURSE_SCHEDULE table. -/
structure ScheduleRow where
  schedule_id : Nat
  course_id : Nat
  day : String
  start_time : String
  end_time : String
  created_at : Nat
deriving Repr, DecidableEq

/-- A schedule entry as it arrives in a request payload. -/
structure ScheduleInput where
  day : String
  start_time : String
  end_time : String
deriving Repr, DecidableEq

/-- The relational store: one list per table plus auto-increment counters. -/
structure DB where
  users : List User
  students : List Student
  courses : List Course
  enrollments : List EnrollmentRow
  schedules : List ScheduleRow
  next_student_id : Nat
  next_course_id : Nat
  next_schedule_id : Nat
deriving Repr, DecidableEq

/-- The error object thrown by the services: HTTP status code, message, and
the `missingCourseIds` payload attached by the relationship validators. -/
structure ApiError where
  statusCode : Nat
  message : String
  missingCourseIds : List Nat
deriving Repr, DecidableEq

/-- JavaScript truthiness of a number-or-null value (ids, counters):
`null` / `undefined` and `0` are falsy. -/
def truthyId : Option Nat → Bool
  | none => false
  | some v => v != 0

/-- JavaScript truthiness of a string-or-null value: absent and `""` are falsy. -/
def truthyStr : Option String → Bool
  | none => false
  | some s => s != ""

/-- The JavaScript idiom `x || null` on a number-or-null value. -/
def jsOrNullId (o : Option Nat) : Option Nat :=
  if truthyId o then o else none

/-- The JavaScript idiom `x || null` on a string-or-null value. -/
def jsOrNullStr (o : Option String) : Option String :=
  if truthyStr o then o else none

/-- Projection of an `Except` to its success value. -/
def okOf : Except ε α → Option α
  | .ok a => some a
  | .error _ => none

/-- Projection of an `Except` to its error value. -/
def errOf : Except ε α → Option ε
  | .ok _ => none
  | .error e => some e

/-! ## Model layer (data access) -/

/-- `userModel.findUserById`: point lookup in USER. -/
def findUserById (db : DB) (userId : Nat) : Option User :=
  db.users.find? (fun u => u.user_id == userId)

/-- `studentModel.findStudentById`: point lookup in STUDENT. -/
def findStudentById (db : DB) (studentId : Nat) : Option Student :=
  db.students.find? (fun s => s.student_id == studentId)

/-- `courseModel.findCourseById`: point lookup in COURSE. -/
def findCourseById (db : DB) (courseId : Nat) : Option Course :=
  db.courses.find? (fun c => c.course_id == courseId)

/-- `courseModel.findCourseByCode`: when a university id is given, the SQL
joins COURSE with USER on `instructor_id = user_id` and filters on
`course_code` and the instructor's `university_id`; when the id is
null/undefined it falls back to a global lookup on `course_code` alone. -/
def findCourseByCode (db : DB) (courseCode : String) (universityId : Option Nat) :
    Option Course :=
  match universityId with
  | some u =>
    db.courses.find? (fun c =>
      c.course_code == courseCode &&
        db.users.any (fun usr =>
          some usr.user_id == c.instructor_id && usr.university_id == some u))
  | none =>
    db.courses.find? (fun c => c.course_code == courseCode)

/-- Modelled from the spec: `findStudentByStudentNumberAndUniversityId` lives
in the updated student model, which is not among the provided sources (only
its callers in `student.service.js` and `STUDENT_UNIVERSITY_ID_UPDATE.md`
are).  Per that documentation it returns a student matching both
`university_id` and `student_number`. -/
def findStudentByStudentNumberAndUniversityId (db : DB) (universityId : Nat)
    (studentNumber : String) : Option Student :=
  db.students.find? (fun s =>
    s.university_id == some universityId && s.student_number == studentNumber)

/-- Result of `validateCoursesExist`. -/
structure CourseValidation where
  isValid : Bool
  missingCourseIds : List Nat
deriving Repr, DecidableEq

/-- `studentModel.validateCoursesExist`: SELECT the ids that exist, then keep
the input ids that were not returned. -/
def validateCoursesExist (db : DB) (courseIds : List Nat) : CourseValidation :=
  if courseIds.isEmpty then ⟨true, []⟩
  else
    let missing := courseIds.filter (fun id => !(db.courses.any (fun c => c.course_id == id)))
    ⟨missing.isEmpty, missing⟩

/-- The message `One or more courses do not exist: <ids joined by comma>`. -/
def missingCoursesMessage (ids : List Nat) : String :=
  "One or more courses do not exist: " ++ String.intercalate ", " (ids.map toString)

/-- `studentModel.getStudentCourses` restricted to the course ids it yields:
STUDENT_COURSE rows of the student inner-joined with COURSE. -/
def getStudentCourseIds (db : DB) (studentId : Nat) : List Nat :=
  ((db.enrollments.filter (fun e =>
      e.student_id == studentId && db.courses.any (fun c => c.course_id == e.course_id))).map
    (fun e => e.course_id))

/-- `studentModel.addStudentToCourses`: validate all courses exist (throwing a
404 listing every missing id), fetch the current associations, and insert only
the pairs that are not already present. -/
def addStudentToCourses (db : DB) (now studentId : Nat) (courseIds : List Nat) :
    Except (ApiError × DB) DB :=
  if courseIds.isEmpty then .ok db
  else
    let v := validateCoursesExist db courseIds
    if !v.isValid then
      .error (⟨404, missingCoursesMessage v.missingCourseIds, v.missingCourseIds⟩, db)
    else
      let existingIds := getStudentCourseIds db studentId
      let newIds := courseIds.filter (fun cid => !(existingIds.contains cid))
      if newIds.isEmpty then .ok db
      else
        .ok { db with enrollments :=
          db.enrollments ++ newIds.map (fun cid => ⟨studentId, cid, now⟩) }

/-- `studentModel.removeStudentFromCourses`: DELETE the named pairs. -/
def removeStudentFromCourses (db : DB) (studentId : Nat) (courseIds : List Nat) : DB :=
  if courseIds.isEmpty then db
  else
    { db with enrollments := db.enrollments.filter (fun e =>
        !(e.student_id == studentId && courseIds.contains e.course_id)) }

/-- `studentModel.replaceStudentCourses`: validate the desired courses exist,
then DELETE every STUDENT_COURSE row of the student and re-INSERT the desired
list with fresh `NOW()` timestamps. -/
def replaceStudentCourses (db : DB) (now studentId : Nat) (courseIds : List Nat) :
    Except (ApiError × DB) DB :=
  if !courseIds.isEmpty &&
      !(validateCoursesExist db courseIds).isValid then
    .error (⟨404, missingCoursesMessage (validateCoursesExist db courseIds).missingCourseIds,
      (validateCoursesExist db courseIds).missingCourseIds⟩, db)
  else
    let db1 := { db with enrollments :=
      db.enrollments.filter (fun e => !(e.student_id == studentId)) }
    if !courseIds.isEmpty then
      .ok { db1 with enrollments :=
        db1.enrollments ++ courseIds.map (fun cid => ⟨studentId, cid, now⟩) }
    else .ok db1

/-- `scheduleModel.createScheduleEntry`: INSERT one COURSE_SCHEDULE row. -/
def createScheduleEntry (db : DB) (now courseId : Nat) (e : ScheduleInput) :
    DB × ScheduleRow :=
  let row : ScheduleRow :=
    ⟨db.next_schedule_id, courseId, e.day, e.start_time, e.end_time, now⟩
  ({ db with
      schedules := db.schedules ++ [row]
      next_schedule_id := db.next_schedule_id + 1 }, row)

/-- `scheduleModel.deleteScheduleByCourseId`: DELETE all schedule rows of a course. -/
def deleteScheduleByCourseId (db : DB) (courseId : Nat) : DB :=
  { db with schedules := db.schedules.filter (fun r => !(r.course_id == courseId)) }

/-- `scheduleModel.replaceScheduleForCourse`: delete all existing entries of
the course, then create the new entries one by one. -/
def replaceScheduleForCourse (db : DB) (now courseId : Nat)
    (entries : List ScheduleInput) : DB × List ScheduleRow :=
  let db1 := deleteScheduleByCourseId db courseId
  entries.foldl
    (fun acc e =>
      let step := createScheduleEntry acc.1 now courseId e
      (step.1, acc.2 ++ [step.2]))
    (db1, ([] : List ScheduleRow))

/-- `courseModel.deleteCourse` together with the storage-level cascades:
STUDENT_COURSE and COURSE_SCHEDULE both declare
`FOREIGN KEY (course_id) REFERENCES COURSE ON DELETE CASCADE`, so removing the
course row removes its enrollment and schedule rows.  Returns whether a row
was deleted (`affectedRows > 0`). -/
def courseModelDeleteCourse (db : DB) (courseId : Nat) : DB × Bool :=
  let existed := db.courses.any (fun c => c.course_id == courseId)
  ({ db with
      courses := db.courses.filter (fun c => !(c.course_id == courseId))
      enrollments := db.enrollments.filter (fun e => !(e.course_id == courseId))
      schedules := db.schedules.filter (fun r => !(r.course_id == courseId)) },
    existed)

/-- `studentModel.deleteStudent` together with the STUDENT_COURSE cascade on
`student_id`.  Returns whether a row was deleted. -/
def studentModelDeleteStudent (db : DB) (studentId : Nat) : DB × Bool :=
  let existed := db.students.any (fun s => s.student_id == studentId)
  ({ db with
      students := db.students.filter (fun s => !(s.student_id == studentId))
      enrollments := db.enrollments.filter (fun e => !(e.student_id == studentId)) },
    existed)

/-! ## Course service (course.service.js, src/unnamed/part_016) -/

/-- Input payload of `courseService.createCourse`. -/
structure CreateCourseInput where
  courseName : String
  courseCode : String
  description : Option String := none
  weeklyHours : Option Nat := none
  academicYear : Option String := none
  courseCategory : Option String := none
  roomNumber : Option String := none
  semester : Option String := none
  schedule : Option (List ScheduleInput) := none
  studentIds : Option (List Nat) := none
  createdBy : Option Nat := none
deriving Repr, DecidableEq

/-- The per-student enrollment loop of `createCourse` / `enrollStudents`:
`for (const studentId of studentIds) await addStudentToCourses(studentId, [courseId])`. -/
def enrollEach (db : DB) (now courseId : Nat) : List Nat → Except (ApiError × DB) DB
  | [] => .ok db
  | sid :: rest =>
    match addStudentToCourses db now sid [courseId] with
    | .error e => .error e
    | .ok db1 => enrollEach db1 now courseId rest

/-- `courseService.createCourse`: require a creator, validate the creator's
existence and role, run the university-scoped (or, without a university,
global) course-code uniqueness check, validate the students to enroll one by
one (throwing on the first missing one), then insert the course with
`instructor_id` set to the creator, its schedule entries, and the
enrollments. -/
def createCourse (db : DB) (now : Nat) (d : CreateCourseInput) :
    Except (ApiError × DB) (DB × Course) :=
  if !truthyId d.createdBy then
    .error (⟨400, "Creator ID is required", []⟩, db)
  else
    match findUserById db (d.createdBy.getD 0) with
    | none => .error (⟨404, "Creator user not found", []⟩, db)
    | some creator =>
      if creator.role != "instructor" && creator.role != "admin" then
        .error (⟨403, "Only instructors and admins can create courses", []⟩, db)
      else if truthyId creator.university_id &&
          (findCourseByCode db d.courseCode creator.university_id).isSome then
        .error (⟨409, "Course with this course code already exists for your university", []⟩, db)
      else if !truthyId creator.university_id &&
          (findCourseByCode db d.courseCode none).isSome then
        .error (⟨409, "Course with this course code already exists", []⟩, db)
      else
        match (d.studentIds.getD []).find? (fun sid => (findStudentById db sid).isNone) with
        | some missing =>
          .error (⟨404, "Student with ID " ++ toString missing ++ " not found", []⟩, db)
        | none =>
          let newCourse : Course := {
            course_id := db.next_course_id
            course_name := d.courseName
            course_code := d.courseCode
            description := jsOrNullStr d.description
            weekly_hours := jsOrNullId d.weeklyHours
            academic_year := jsOrNullStr d.academicYear
            course_category := jsOrNullStr d.courseCategory
            instructor_id := jsOrNullId d.createdBy
            room_number := jsOrNullStr d.roomNumber
            semester := jsOrNullStr d.semester }
          let db1 := { db with
            courses := db.courses ++ [newCourse]
            next_course_id := db.next_course_id + 1 }
          let db2 :=
            match d.schedule with
            | some entries =>
              entries.foldl (fun acc e => (createScheduleEntry acc now newCourse.course_id e).1) db1
            | none => db1
          match enrollEach db2 now newCourse.course_id (d.studentIds.getD []) with
          | .error e => .error e
          | .ok db3 =>
            -- the JS then refetches the enrolled students via
            -- getEnrolledStudents(newCourse.course_id, createdBy); that
            -- ownership check passes since instructor_id was set to createdBy
            .ok (db3, newCourse)

/-- Input payload of `courseService.updateCourse` (`none` = field absent /
undefined, `some none` = explicit null). -/
structure UpdateCourseInput where
  courseName : Option String := none
  courseCode : Option String := none
  description : Option (Option String) := none
  weeklyHours : Option (Option Nat) := none
  academicYear : Option (Option String) := none
  courseCategory : Option (Option String) := none
  instructorId : Option (Option Nat) := none
  roomNumber : Option (Option String) := none
  semester : Option (Option String) := none
  schedule : Option (List ScheduleInput) := none
deriving Repr, DecidableEq

/-- The `updateFields` object handed to `courseModel.updateCourse`
(`none` = key absent, so the column is left alone). -/
structure CourseUpdateFields where
  course_name : Option String := none
  course_code : Option String := none
  description : Option (Option String) := none
  weekly_hours : Option (Option Nat) := none
  academic_year : Option (Option String) := none
  course_category : Option (Option String) := none
  instructor_id : Option (Option Nat) := none
  room_number : Option (Option String) := none
  semester : Option (Option String) := none
deriving Repr, DecidableEq

/-- Apply an UPDATE's SET clause to one COURSE row. -/
def applyCourseUpdate (c : Course) (f : CourseUpdateFields) : Course :=
  { c with
      course_name := f.course_name.getD c.course_name
      course_code := f.course_code.getD c.course_code
      description := f.description.getD c.description
      weekly_hours := f.weekly_hours.getD c.weekly_hours
      academic_year := f.academic_year.getD c.academic_year
      course_category := f.course_category.getD c.course_category
      instructor_id := f.instructor_id.getD c.instructor_id
      room_number := f.room_number.getD c.room_number
      semester := f.semester.getD c.semester }

/-- `courseModel.updateCourse`: UPDATE the matching row(s). -/
def courseModelUpdateCourse (db : DB) (courseId : Nat) (f : CourseUpdateFields) : DB :=
  { db with courses := db.courses.map (fun c =>
      if c.course_id == courseId then applyCourseUpdate c f else c) }

/-- The course-code conflict check inside `updateCourse`: when a truthy code
different from the current one is supplied, look the caller up; with a truthy
university the check is scoped to it, otherwise (including when the caller
row is missing) it falls back to the global lookup. -/
def courseCodeConflict (db : DB) (existingCourse : Course) (courseCode : Option String)
    (userId : Nat) : Option ApiError :=
  match courseCode with
  | some code =>
    if code != "" && code != existingCourse.course_code then
      match findUserById db userId with
      | some instr =>
        if truthyId instr.university_id then
          if (findCourseByCode db code instr.university_id).isSome then
            some ⟨409, "Course with this course code already exists for your university", []⟩
          else none
        else
          if (findCourseByCode db code none).isSome then
            some ⟨409, "Course with this course code already exists", []⟩
          else none
      | none =>
        if (findCourseByCode db code none).isSome then
          some ⟨409, "Course with this course code already exists", []⟩
        else none
    else none
  | none => none

/-- `courseService.updateCourse`: 404 when absent, 403 when `instructor_id`
differs from the caller, 403 when the payload proposes an `instructorId`
different from the caller, 409 when a changed course code conflicts within
the caller's university (globally when the caller has none), then UPDATE
(with `instructor_id` intentionally excluded) and replace or clear the
schedule when one was supplied. -/
def updateCourse (db : DB) (now courseId : Nat) (u : UpdateCourseInput) (userId : Nat) :
    Except (ApiError × DB) (DB × Course) :=
  match findCourseById db courseId with
  | none => .error (⟨404, "Course not found", []⟩, db)
  | some existingCourse =>
    if existingCourse.instructor_id != some userId then
      .error (⟨403, "You do not have permission to update this course", []⟩, db)
    else if (match u.instructorId with
             | some (some v) => v != userId
             | _ => false) then
      .error (⟨403, "You cannot change the course owner. You can only update courses you created.", []⟩, db)
    else
      match courseCodeConflict db existingCourse u.courseCode userId with
      | some e => .error (e, db)
      | none =>
        let fields : CourseUpdateFields := {
          course_name := u.courseName
          course_code := u.courseCode
          description := u.description
          weekly_hours := u.weeklyHours
          academic_year := u.academicYear
          course_category := u.courseCategory
          instructor_id := none  -- intentionally excluded: ownership cannot be changed
          room_number := u.roomNumber
          semester := u.semester }
        let db1 := courseModelUpdateCourse db courseId fields
        let updatedCourse := (findCourseById db1 courseId).getD
          (applyCourseUpdate existingCourse fields)
        let db2 :=
          match u.schedule with
          | some entries =>
            if !entries.isEmpty then (replaceScheduleForCourse db1 now courseId entries).1
            else deleteScheduleByCourseId db1 courseId
          | none => db1
        -- the JS then refetches the enrolled students via
        -- getEnrolledStudents(courseId, userId); instructor_id is unchanged so
        -- that ownership check passes
        .ok (db2, updatedCourse)

/-- `courseService.deleteCourse`: 404 / ownership 403, then delete the
schedule rows explicitly and the course row (its cascades remove the
enrollments). -/
def deleteCourse (db : DB) (courseId userId : Nat) : Except (ApiError × DB) DB :=
  match findCourseById db courseId with
  | none => .error (⟨404, "Course not found", []⟩, db)
  | some course =>
    if course.instructor_id != some userId then
      .error (⟨403, "You do not have permission to delete this course", []⟩, db)
    else
      let db1 := deleteScheduleByCourseId db courseId
      let step := courseModelDeleteCourse db1 courseId
      if !step.2 then .error (⟨500, "Failed to delete course", []⟩, step.1)
      else .ok step.1

/-- `courseService.getCourseById` (the gate and the returned row; the JS also
enriches the result with schedule and students, which are further reads). -/
def getCourseById (db : DB) (courseId userId : Nat) : Except ApiError Course :=
  match findCourseById db courseId with
  | none => .error ⟨404, "Course not found", []⟩
  | some course =>
    if course.instructor_id != some userId then
      .error ⟨403, "You do not have permission to access this course", []⟩
    else .ok course

/-- `courseService.getEnrolledStudents`: 404 / ownership 403, then the ids of
the students enrolled in the course (STUDENT inner-joined with
STUDENT_COURSE). -/
def getEnrolledStudents (db : DB) (courseId userId : Nat) : Except ApiError (List Nat) :=
  match findCourseById db courseId with
  | none => .error ⟨404, "Course not found", []⟩
  | some course =>
    if course.instructor_id != some userId then
      .error ⟨403, "You do not have permission to view students in this course", []⟩
    else
      .ok ((db.enrollments.filter (fun e =>
        e.course_id == courseId &&
          db.students.any (fun s => s.student_id == e.student_id))).map
        (fun e => e.student_id))

/-- `courseService.enrollStudents`: 404 / ownership 403, validate the students
one by one throwing on the FIRST missing id, then add the pairs. -/
def enrollStudents (db : DB) (now courseId : Nat) (studentIds : List Nat) (userId : Nat) :
    Except (ApiError × DB) DB :=
  match findCourseById db courseId with
  | none => .error (⟨404, "Course not found", []⟩, db)
  | some course =>
    if course.instructor_id != some userId then
      .error (⟨403, "You do not have permission to enroll students in this course", []⟩, db)
    else
      match studentIds.find? (fun sid => (findStudentById db sid).isNone) with
      | some missing =>
        .error (⟨404, "Student with ID " ++ toString missing ++ " not found", []⟩, db)
      | none => enrollEach db now courseId studentIds

/-- `courseService.removeStudents`: 404 / ownership 403, then unlink each
named pair (removing a non-linked pair is a no-op). -/
def removeStudents (db : DB) (courseId : Nat) (studentIds : List Nat) (userId : Nat) :
    Except (ApiError × DB) DB :=
  match findCourseById db courseId with
  | none => .error (⟨404, "Course not found", []⟩, db)
  | some course =>
    if course.instructor_id != some userId then
      .error (⟨403, "You do not have permission to remove students from this course", []⟩, db)
    else
      .ok (studentIds.foldl (fun acc sid => removeStudentFromCourses acc sid [courseId]) db)

/-! ## Student service (student.service.js) -/

/-- Input payload of `studentService.createStudent`. -/
structure CreateStudentInput where
  name : String
  surname : String
  universityId : Option Nat := none
  studentNumber : String
  department : Option String := none
  faceEmbedding : Option String := none
  photoPath : Option String := none
  createdBy : Option Nat := none
  courseIds : Option (List Nat) := none
deriving Repr, DecidableEq

/-- `studentService.createStudent`: resolve the university from the payload or
the creator, run the scoped student-number uniqueness check ONLY when a
university id was resolved, validate the desired courses (404 listing every
missing id), insert, and link the courses. -/
def createStudent (db : DB) (now : Nat) (d : CreateStudentInput) :
    Except (ApiError × DB) (DB × Student) :=
  let finalUniversityId : Option Nat :=
    if !truthyId d.universityId && truthyId d.createdBy then
      match findUserById db (d.createdBy.getD 0) with
      | some creator =>
        if truthyId creator.university_id then creator.university_id else d.universityId
      | none => d.universityId
    else d.universityId
  if truthyId finalUniversityId &&
      (findStudentByStudentNumberAndUniversityId db (finalUniversityId.getD 0)
        d.studentNumber).isSome then
    .error (⟨409, "Student with this student number in this university already exists", []⟩, db)
  else
    let cids := d.courseIds.getD []
    if !cids.isEmpty && !(validateCoursesExist db cids).isValid then
      .error (⟨404, missingCoursesMessage (validateCoursesExist db cids).missingCourseIds,
        (validateCoursesExist db cids).missingCourseIds⟩, db)
    else
      let newStudent : Student := {
        student_id := db.next_student_id
        name := d.name
        surname := d.surname
        university_id := jsOrNullId finalUniversityId
        student_number := d.studentNumber
        department := jsOrNullStr d.department
        face_embedding := jsOrNullStr d.faceEmbedding
        photo_path := jsOrNullStr d.photoPath
        created_by := jsOrNullId d.createdBy
        created_at := now }
      let db1 := { db with
        students := db.students ++ [newStudent]
        next_student_id := db.next_student_id + 1 }
      if !cids.isEmpty then
        match addStudentToCourses db1 now newStudent.student_id cids with
        | .error e => .error e
        | .ok db2 => .ok (db2, newStudent)
      else .ok (db1, newStudent)

/-- Input payload of `studentService.updateStudent` (`none` = absent /
undefined, `some none` = explicit null). -/
structure UpdateStudentInput where
  name : Option String := none
  surname : Option String := none
  universityId : Option (Option Nat) := none
  studentNumber : Option String := none
  department : Option (Option String) := none
  faceEmbedding : Option (Option String) := none
  photoPath : Option (Option String) := none
  createdBy : Option (Option Nat) := none
  courseIds : Option (List Nat) := none
deriving Repr, DecidableEq

/-- The `updateFields` object handed to `studentModel.updateStudent`.  The
allowed columns follow student.model.js, plus `university_id`, which the
update documentation records as added to the allowed fields (the updated
model file itself is not among the provided sources). -/
structure StudentUpdateFields where
  name : Option String := none
  surname : Option String := none
  university_id : Option (Option Nat) := none
  student_number : Option String := none
  department : Option (Option String) := none
  face_embedding : Option (Option String) := none
  photo_path : Option (Option String) := none
  created_by : Option (Option Nat) := none
deriving Repr, DecidableEq

/-- Apply an UPDATE's SET clause to one STUDENT row. -/
def applyStudentUpdate (s : Student) (f : StudentUpdateFields) : Student :=
  { s with
      name := f.name.getD s.name
      surname := f.surname.getD s.surname
      university_id := f.university_id.getD s.university_id
      student_number := f.student_number.getD s.student_number
      department := f.department.getD s.department
      face_embedding := f.face_embedding.getD s.face_embedding
      photo_path := f.photo_path.getD s.photo_path
      created_by := f.created_by.getD s.created_by }

/-- `studentModel.updateStudent`: UPDATE the matching row(s). -/
def studentModelUpdateStudent (db : DB) (studentId : Nat) (f : StudentUpdateFields) : DB :=
  { db with students := db.students.map (fun s =>
      if s.student_id == studentId then applyStudentUpdate s f else s) }

/-- `studentService.updateStudent`: 404 when absent; ownership 403 unless the
caller is an admin or the creator; a distinct 403 when a non-admin proposes a
non-null `createdBy` different from the current owner (an explicit null slips
past this guard and is written); two scoped student-number conflict checks,
both skipped when no university id is available to check against; course
validation listing every missing id; then UPDATE and, when `courseIds` was
present, replace the course links. -/
def updateStudent (db : DB) (now studentId : Nat) (u : UpdateStudentInput)
    (userId : Nat) (userRole : String) : Except (ApiError × DB) (DB × Student) :=
  match findStudentById db studentId with
  | none => .error (⟨404, "Student not found", []⟩, db)
  | some existingStudent =>
    if userRole != "admin" && existingStudent.created_by != some userId then
      .error (⟨403, "You do not have permission to update this student", []⟩, db)
    else if (match u.createdBy with
             | some (some v) => some v != existingStudent.created_by && userRole != "admin"
             | _ => false) then
      .error (⟨403, "You cannot change the student owner. You can only update students you created.", []⟩, db)
    else
      let universityIdForCheck : Option Nat :=
        match u.universityId with
        | none => existingStudent.university_id
        | some x => x
      if (match u.studentNumber with
          | some sn => sn != "" && sn != existingStudent.student_number &&
              truthyId universityIdForCheck &&
              (findStudentByStudentNumberAndUniversityId db (universityIdForCheck.getD 0)
                sn).isSome
          | none => false) then
        .error (⟨409, "Student with this student number already exists in this university", []⟩, db)
      else if (match u.universityId with
          | some uv => uv != existingStudent.university_id &&
              u.studentNumber == some existingStudent.student_number &&
              truthyId uv &&
              (findStudentByStudentNumberAndUniversityId db (uv.getD 0)
                existingStudent.student_number).isSome
          | none => false) then
        .error (⟨409, "Student with this student number already exists in the target university", []⟩, db)
      else
        let cids := u.courseIds.getD []
        if u.courseIds.isSome && !cids.isEmpty && !(validateCoursesExist db cids).isValid then
          .error (⟨404, missingCoursesMessage (validateCoursesExist db cids).missingCourseIds,
            (validateCoursesExist db cids).missingCourseIds⟩, db)
        else
          let fields : StudentUpdateFields := {
            name := u.name
            surname := u.surname
            university_id := u.universityId
            student_number := u.studentNumber
            department := u.department
            face_embedding := u.faceEmbedding
            photo_path := u.photoPath
            created_by := u.createdBy }
          let db1 := studentModelUpdateStudent db studentId fields
          let updatedStudent := (findStudentById db1 studentId).getD
            (applyStudentUpdate existingStudent fields)
          if u.courseIds.isSome then
            match replaceStudentCourses db1 now studentId cids with
            | .error e => .error e
            | .ok db2 => .ok (db2, updatedStudent)
          else .ok (db1, updatedStudent)

/-- `studentService.deleteStudent`: 404 when absent; ownership 403 unless the
caller is an admin or the creator; then DELETE (the junction-table cascade
removes the enrollments). -/
def deleteStudent (db : DB) (studentId userId : Nat) (userRole : String) :
    Except (ApiError × DB) DB :=
  match findStudentById db studentId with
  | none => .error (⟨404, "Student not found", []⟩, db)
  | some student =>
    if userRole != "admin" && student.created_by != some userId then
      .error (⟨403, "You do not have permission to delete this student", []⟩, db)
    else
      let step := studentModelDeleteStudent db studentId
      if !step.2 then .error (⟨500, "Failed to delete student", []⟩, step.1)
      else .ok step.1

/-! ## Observation helpers and shared lemmas -/

/-- The STUDENT_COURSE rows of one (student, course) pair. -/
def enrollmentsFor (db : DB) (studentId courseId : Nat) : List EnrollmentRow :=
  db.enrollments.filter (fun e => e.student_id == studentId && e.course_id == courseId)

theorem filter_not_then_filter {α} (l : List α) (p : α → Bool) :
    (l.filter (fun a => !(p a))).filter p = [] := by
  induction l with
  | nil => rfl
  | cons a t ih =>
    by_cases h : p a = true
    · simp [List.filter, h, ih]
    · simp only [Bool.not_eq_true] at h
      simp [List.filter, h, ih]

/-! ## C10 -/

/-- C10: a course whose `instructor_id` is null is unreachable: every one of
`getCourseById`, `updateCourse`, `deleteCourse`, `enrollStudents`,
`removeStudents` and `getEnrolledStudents` compares `instructor_id` with the
caller's id and null never equals an authenticated user id, so each call is
rejected with its Forbidden (403) error for every caller, with no admin
exception. -/
theorem c10_orphan_course_unreachable (db : DB) (now courseId userId : Nat)
    (u : UpdateCourseInput) (sids : List Nat) (c : Course)
    (hfind : findCourseById db courseId = some c)
    (hnull : c.instructor_id = none) :
    getCourseById db courseId userId =
        .error ⟨403, "You do not have permission to access this course", []⟩ ∧
    updateCourse db now courseId u userId =
        .error (⟨403, "You do not have permission to update this course", []⟩, db) ∧
    deleteCourse db courseId userId =
        .error (⟨403, "You do not have permission to delete this course", []⟩, db) ∧
    enrollStudents db now courseId sids userId =
        .error (⟨403, "You do not have permission to enroll students in this course", []⟩, db) ∧
    removeStudents db courseId sids userId =
        .error (⟨403, "You do not have permission to remove students from this course", []⟩, db) ∧
    getEnrolledStudents db courseId userId =
        .error ⟨403, "You do not have permission to view students in this course", []⟩ := by
  refine ⟨?_, ?_, ?_, ?_, ?_, ?_⟩ <;>
    simp [getCourseById, updateCourse, deleteCourse, enrollStudents, removeStudents,
      getEnrolledStudents, hfind, hnull]

/-- Concrete instance of `c10_orphan_course_unreachable`: a course row with
null `instructor_id` in an otherwise populated store is denied to user 2. -/
theorem c10_orphan_course_unreachable_witness :
    getCourseById
        ⟨[⟨1, "instructor", some 10⟩], [], [⟨7, "N", "X1", none, none, none, none, none, none, none⟩],
          [], [], 1, 8, 1⟩ 7 2 =
      .error ⟨403, "You do not have permission to access this course", []⟩ ∧
    deleteCourse
        ⟨[⟨1, "instructor", some 10⟩], [], [⟨7, "N", "X1", none, none, none, none, none, none, none⟩],
          [], [], 1, 8, 1⟩ 7 2 =
      .error (⟨403, "You do not have permission to delete this course", []⟩,
        ⟨[⟨1, "instructor", some 10⟩], [], [⟨7, "N", "X1", none, none, none, none, none, none, none⟩],
          [], [], 1, 8, 1⟩) := by
  have h := c10_orphan_course_unreachable
    ⟨[⟨1, "instructor", some 10⟩], [], [⟨7, "N", "X1", none, none, none, none, none, none, none⟩],
      [], [], 1, 8, 1⟩ 0 7 2 {} []
    ⟨7, "N", "X1", none, none, none, none, none, none, none⟩ (by decide) rfl
  exact ⟨h.1, h.2.2.1⟩

/-! ## C9 -/

/-- C9: after a successful `deleteCourse`, no COURSE_SCHEDULE row and no
STUDENT_COURSE row referencing the course id remains (the service deletes the
schedule explicitly and the junction-table cascade removes the enrollments),
and the course row itself is gone. -/
theorem c9_cascade_completeness (db db' : DB) (courseId userId : Nat)
    (hok : deleteCourse db courseId userId = .ok db') :
    db'.schedules.filter (fun r => r.course_id == courseId) = [] ∧
    db'.enrollments.filter (fun e => e.course_id == courseId) = [] ∧
    db'.courses.filter (fun c => c.course_id == courseId) = [] := by
  unfold deleteCourse at hok
  split at hok
  · exact absurd hok (by simp)
  · split at hok
    · exact absurd hok (by simp)
    · simp only [deleteScheduleByCourseId, courseModelDeleteCourse] at hok
      split at hok
      · exact absurd hok (by simp)
      · simp only [Except.ok.injEq] at hok
        subst hok
        refine ⟨?_, ?_, ?_⟩ <;> simp [filter_not_then_filter]

/-- Concrete instance of `c9_cascade_completeness`: deleting course 1, which
has one schedule entry and two enrollments, leaves no row referencing it. -/
theorem c9_cascade_completeness_witness :
    (⟨[⟨1, "instructor", some 10⟩],
        [⟨1, "A", "B", none, "1001", none, none, none, some 1, 0⟩],
        [], [], [], 2, 2, 2⟩ : DB).schedules.filter (fun r => r.course_id == 1) = [] ∧
    (⟨[⟨1, "instructor", some 10⟩],
        [⟨1, "A", "B", none, "1001", none, none, none, some 1, 0⟩],
        [], [], [], 2, 2, 2⟩ : DB).enrollments.filter (fun e => e.course_id == 1) = [] ∧
    (⟨[⟨1, "instructor", some 10⟩],
        [⟨1, "A", "B", none, "1001", none, none, none, some 1, 0⟩],
        [], [], [], 2, 2, 2⟩ : DB).courses.filter (fun c => c.course_id == 1) = [] :=
  c9_cascade_completeness
    ⟨[⟨1, "instructor", some 10⟩],
      [⟨1, "A", "B", none, "1001", none, none, none, some 1, 0⟩],
      [⟨1, "Algo", "CS101", none, none, none, none, some 1, none, none⟩],
      [⟨1, 1, 5⟩, ⟨2, 1, 6⟩], [⟨1, 1, "Monday", "09:00", "11:00", 0⟩], 2, 2, 2⟩
    ⟨[⟨1, "instructor", some 10⟩],
      [⟨1, "A", "B", none, "1001", none, none, none, some 1, 0⟩],
      [], [], [], 2, 2, 2⟩ 1 1 (by rfl)

/-! ## C8 -/

/-- C8: incremental link is idempotent.  Starting from a store that contains
the course but no link for the pair, `addStudentToCourses student [course]`
inserts exactly one STUDENT_COURSE row for the pair with the first call's
timestamp, and a second call with a later timestamp is accepted as a no-op
(same store back, no error), so the row and its `created_at` survive. -/
theorem c8_link_idempotent (db : DB) (t1 t2 sid cid : Nat)
    (hcourse : db.courses.any (fun c => c.course_id == cid) = true)
    (hnew : ∀ e ∈ db.enrollments, ¬(e.student_id == sid && e.course_id == cid) = true) :
    ∃ db1, addStudentToCourses db t1 sid [cid] = .ok db1 ∧
      enrollmentsFor db1 sid cid = [⟨sid, cid, t1⟩] ∧
      addStudentToCourses db1 t2 sid [cid] = .ok db1 := by
  have hvalid : validateCoursesExist db [cid] = ⟨true, []⟩ := by
    simp [validateCoursesExist, hcourse]
  have hnotmem : cid ∉ getStudentCourseIds db sid := by
    intro hmem
    obtain ⟨e, he, hecid⟩ := List.mem_map.mp hmem
    have he2 := List.mem_filter.mp he
    have hpred : (e.student_id == sid) = true ∧
        (db.courses.any (fun c => c.course_id == e.course_id)) = true := by
      simpa [Bool.and_eq_true] using he2.2
    exact hnew e he2.1 (by simp [Bool.and_eq_true, hpred.1, hecid])
  refine ⟨{ db with enrollments := db.enrollments ++ [⟨sid, cid, t1⟩] }, ?_, ?_, ?_⟩
  · simp [addStudentToCourses, hvalid, hnotmem, List.filter_cons]
  · have hold : db.enrollments.filter (fun e => e.student_id == sid && e.course_id == cid) = [] :=
      List.filter_eq_nil_iff.mpr hnew
    simp [enrollmentsFor, List.filter_append, hold]
  · have hvalid1 : validateCoursesExist
        { db with enrollments := db.enrollments ++ [⟨sid, cid, t1⟩] } [cid] = ⟨true, []⟩ := by
      simp [validateCoursesExist, hcourse]
    have hmem1 : cid ∈ getStudentCourseIds
        { db with enrollments := db.enrollments ++ [⟨sid, cid, t1⟩] } sid := by
      apply List.mem_map.mpr
      refine ⟨⟨sid, cid, t1⟩, ?_, rfl⟩
      apply List.mem_filter.mpr
      refine ⟨by simp, by simp [hcourse]⟩
    simp [addStudentToCourses, hvalid1, hmem1, List.filter_cons]

/-- Concrete instance of `c8_link_idempotent`: linking student 1 to course 3
twice (timestamps 11 then 22) leaves the single row with timestamp 11. -/
theorem c8_link_idempotent_witness :
    ∃ db1, addStudentToCourses
        ⟨[], [⟨1, "A", "B", none, "1001", none, none, none, some 1, 0⟩],
          [⟨3, "OS", "CS103", none, none, none, none, some 1, none, none⟩],
          [], [], 2, 4, 1⟩ 11 1 [3] = .ok db1 ∧
      enrollmentsFor db1 1 3 = [⟨1, 3, 11⟩] ∧
      addStudentToCourses db1 22 1 [3] = .ok db1 :=
  c8_link_idempotent
    ⟨[], [⟨1, "A", "B", none, "1001", none, none, none, some 1, 0⟩],
      [⟨3, "OS", "CS103", none, none, none, none, some 1, none, none⟩],
      [], [], 2, 4, 1⟩ 11 22 1 3 (by decide) (by decide)

/-! ## Counterexamples for the corrected claims -/

/-- C1 counterexample: user 2 has role "admin" yet `updateCourse` on course 1
(owned by user 1) rejects them with the ownership Forbidden error — the
course-side ownership check compares only `instructor_id` with the caller's
id and has no admin exception, refuting "a principal whose role is admin is
allowed regardless of ownership" for Course resources. -/
theorem c1_admin_course_update_denied :
    updateCourse
      ⟨[⟨1, "instructor", some 10⟩, ⟨2, "admin", some 10⟩], [],
        [⟨1, "Algo", "CS101", none, none, none, none, some 1, none, none⟩], [], [], 1, 2, 1⟩
      9 1 {} 2 =
    .error (⟨403, "You do not have permission to update this course", []⟩,
      ⟨[⟨1, "instructor", some 10⟩, ⟨2, "admin", some 10⟩], [],
        [⟨1, "Algo", "CS101", none, none, none, none, some 1, none, none⟩], [], [], 1, 2, 1⟩) := by
  rfl

/-- C2 counterexample: user 1 has role "admin" and owns course 1, yet an
update proposing `instructorId = 2` is rejected with the owner-change
Forbidden error — `updateCourse` rejects any proposed instructor different
from the caller regardless of role, refuting "an admin principal is permitted
to perform the owner change" for Course resources. -/
theorem c2_admin_cannot_change_course_owner :
    updateCourse
      ⟨[⟨1, "admin", some 10⟩, ⟨2, "instructor", some 10⟩], [],
        [⟨1, "Algo", "CS101", none, none, none, none, some 1, none, none⟩], [], [], 1, 2, 1⟩
      9 1 { instructorId := some (some 2) } 1 =
    .error (⟨403, "You cannot change the course owner. You can only update courses you created.", []⟩,
      ⟨[⟨1, "admin", some 10⟩, ⟨2, "instructor", some 10⟩], [],
        [⟨1, "Algo", "CS101", none, none, none, none, some 1, none, none⟩], [], [], 1, 2, 1⟩) := by
  rfl

/-- C3 counterexample: student 1 currently holds links {course 2 (at time 5),
course 1 (at time 5)}; replacing with desired set {2, 3} at time 9 keeps
course 2 in the membership but its STUDENT_COURSE row comes back with
`created_at = 9`, not the original 5 — `replaceStudentCourses` deletes all
rows and reinserts, refuting "the created_at timestamp of every unchanged
link is preserved". -/
theorem c3_replace_resets_timestamp :
    okOf (replaceStudentCourses
        ⟨[], [⟨1, "A", "B", none, "1001", none, none, none, some 1, 0⟩],
          [⟨1, "Algo", "CS101", none, none, none, none, some 1, none, none⟩,
            ⟨2, "DS", "CS102", none, none, none, none, some 1, none, none⟩,
            ⟨3, "OS", "CS103", none, none, none, none, some 1, none, none⟩],
          [⟨1, 1, 5⟩, ⟨1, 2, 5⟩], [], 2, 4, 1⟩ 9 1 [2, 3]) =
      some ⟨[], [⟨1, "A", "B", none, "1001", none, none, none, some 1, 0⟩],
        [⟨1, "Algo", "CS101", none, none, none, none, some 1, none, none⟩,
          ⟨2, "DS", "CS102", none, none, none, none, some 1, none, none⟩,
          ⟨3, "OS", "CS103", none, none, none, none, some 1, none, none⟩],
        [⟨1, 2, 9⟩, ⟨1, 3, 9⟩], [], 2, 4, 1⟩ ∧
    enrollmentsFor
      ⟨[], [⟨1, "A", "B", none, "1001", none, none, none, some 1, 0⟩],
        [⟨1, "Algo", "CS101", none, none, none, none, some 1, none, none⟩,
          ⟨2, "DS", "CS102", none, none, none, none, some 1, none, none⟩,
          ⟨3, "OS", "CS103", none, none, none, none, some 1, none, none⟩],
        [⟨1, 1, 5⟩, ⟨1, 2, 5⟩], [], 2, 4, 1⟩ 1 2 = [⟨1, 2, 5⟩] ∧
    enrollmentsFor
      ⟨[], [⟨1, "A", "B", none, "1001", none, none, none, some 1, 0⟩],
        [⟨1, "Algo", "CS101", none, none, none, none, some 1, none, none⟩,
          ⟨2, "DS", "CS102", none, none, none, none, some 1, none, none⟩,
          ⟨3, "OS", "CS103", none, none, none, none, some 1, none, none⟩],
        [⟨1, 2, 9⟩, ⟨1, 3, 9⟩], [], 2, 4, 1⟩ 1 2 = [⟨1, 2, 9⟩] := by
  exact ⟨rfl, rfl, rfl⟩

/-- C5 counterexample: the store already holds an untenanted student with
number "1001"; creating another student with number "1001", no universityId
and no creator succeeds, leaving two students with the same number — the
student-side uniqueness guard is skipped entirely when no tenant is
resolvable, refuting "the uniqueness check is still performed as a global
lookup rather than being skipped". -/
theorem c5_student_check_skipped_without_tenant :
    (okOf (createStudent
        ⟨[], [⟨1, "A", "B", none, "1001", none, none, none, some 1, 0⟩], [], [], [], 2, 1, 1⟩ 7
        { name := "X", surname := "Y", studentNumber := "1001" })).map
      (fun p => (p.1.students.filter (fun s => s.student_number == "1001")).length) =
    some 2 := by
  rfl

/-- C6 counterexample: enrolling students [98, 99] — both nonexistent — in
course 1 fails with an error that names only 98 in its message and carries an
empty structured id list, refuting "the error enumerates every missing
identifier in the input". -/
theorem c6_enroll_reports_only_first_missing :
    enrollStudents
      ⟨[⟨1, "instructor", some 10⟩], [],
        [⟨1, "Algo", "CS101", none, none, none, none, some 1, none, none⟩], [], [], 1, 2, 1⟩
      9 1 [98, 99] 1 =
    .error (⟨404, "Student with ID 98 not found", []⟩,
      ⟨[⟨1, "instructor", some 10⟩], [],
        [⟨1, "Algo", "CS101", none, none, none, none, some 1, none, none⟩], [], [], 1, 2, 1⟩) := by
  rfl

/-- C7 counterexample: creating a student with no `createdBy` succeeds and the
record exists with `created_by = null`, refuting "every OwnedResource has a
non-null owner at all times after creation" for Student resources. -/
theorem c7_created_by_null_at_creation :
    (okOf (createStudent ⟨[], [], [], [], [], 1, 1, 1⟩ 7
        { name := "X", surname := "Y", studentNumber := "2002" })).map
      (fun p => p.2.created_by) = some none := by
  rfl

/-! ## C3 (amended) -/

theorem filter_idem {α} (l : List α) (p : α → Bool) :
    (l.filter p).filter p = l.filter p := by
  induction l with
  | nil => rfl
  | cons a t ih =>
    by_cases h : p a = true
    · simp [List.filter, h, ih]
    · simp only [Bool.not_eq_true] at h
      simp [List.filter, h, ih]

/-- The COURSE_SCHEDULE rows produced by inserting `entries` in order starting
from auto-increment id `nextId`. -/
def scheduleRowsFrom (nextId now courseId : Nat) : List ScheduleInput → List ScheduleRow
  | [] => []
  | e :: rest =>
    ⟨nextId, courseId, e.day, e.start_time, e.end_time, now⟩ ::
      scheduleRowsFrom (nextId + 1) now courseId rest

theorem foldl_createSchedule_schedules (entries : List ScheduleInput)
    (now courseId : Nat) :
    ∀ (db : DB) (acc : List ScheduleRow),
    (entries.foldl
        (fun acc e =>
          let step := createScheduleEntry acc.1 now courseId e
          (step.1, acc.2 ++ [step.2])) (db, acc)).1.schedules =
      db.schedules ++ scheduleRowsFrom db.next_schedule_id now courseId entries := by
  induction entries with
  | nil => intro db acc; simp [scheduleRowsFrom]
  | cons e rest ih =>
    intro db acc
    have hstep : ((e :: rest).foldl
        (fun acc e =>
          let step := createScheduleEntry acc.1 now courseId e
          (step.1, acc.2 ++ [step.2])) (db, acc)) =
        (rest.foldl
          (fun acc e =>
            let step := createScheduleEntry acc.1 now courseId e
            (step.1, acc.2 ++ [step.2]))
          ((createScheduleEntry db now courseId e).1,
            acc ++ [(createScheduleEntry db now courseId e).2])) := rfl
    rw [hstep, ih]
    simp [createScheduleEntry, scheduleRowsFrom]

theorem scheduleRowsFrom_course_id (entries : List ScheduleInput)
    (nextId now courseId : Nat) :
    ∀ r ∈ scheduleRowsFrom nextId now courseId entries,
      r.course_id = courseId ∧ r.created_at = now := by
  induction entries generalizing nextId with
  | nil => intro r hr; cases hr
  | cons e rest ih =>
    intro r hr
    rcases List.mem_cons.mp hr with hr | hr
    · subst hr; exact ⟨rfl, rfl⟩
    · exact ih (nextId + 1) r hr

theorem scheduleRowsFrom_shape (entries : List ScheduleInput)
    (nextId now courseId : Nat) :
    (scheduleRowsFrom nextId now courseId entries).map
        (fun r => (r.day, r.start_time, r.end_time)) =
      entries.map (fun e => (e.day, e.start_time, e.end_time)) := by
  induction entries generalizing nextId with
  | nil => rfl
  | cons e rest ih => simp [scheduleRowsFrom, ih]

/-- C3 (amended): the replace-mode reconciliation is NOT a true set
difference: both `replaceStudentCourses` and `replaceScheduleForCourse`
delete every existing row of the anchor and reinsert the desired set with
fresh timestamps.  The final membership equals the desired set and rows of
other anchors are untouched, but every surviving row — including the
unchanged ones — carries the call's timestamp, so the original `created_at`
of an unchanged link is lost. -/
theorem c3_amended_replace_semantics (db : DB) (now studentId courseId : Nat)
    (courseIds : List Nat) (entries : List ScheduleInput)
    (hvalid : (validateCoursesExist db courseIds).isValid = true) :
    (∃ db1, replaceStudentCourses db now studentId courseIds = .ok db1 ∧
      db1.enrollments.filter (fun e => e.student_id == studentId) =
        courseIds.map (fun cid => ⟨studentId, cid, now⟩) ∧
      db1.enrollments.filter (fun e => !(e.student_id == studentId)) =
        db.enrollments.filter (fun e => !(e.student_id == studentId))) ∧
    ((∀ r ∈ (replaceScheduleForCourse db now courseId entries).1.schedules,
        r.course_id = courseId → r.created_at = now) ∧
      (replaceScheduleForCourse db now courseId entries).1.schedules.filter
          (fun r => !(r.course_id == courseId)) =
        db.schedules.filter (fun r => !(r.course_id == courseId)) ∧
      ((replaceScheduleForCourse db now courseId entries).1.schedules.filter
          (fun r => r.course_id == courseId)).map
          (fun r => (r.day, r.start_time, r.end_time)) =
        entries.map (fun e => (e.day, e.start_time, e.end_time))) := by
  constructor
  · by_cases hemp : courseIds.isEmpty = true
    · refine ⟨{ db with enrollments :=
        db.enrollments.filter (fun e => !(e.student_id == studentId)) }, ?_, ?_, ?_⟩
      · simp [replaceStudentCourses, hemp]
      · have : courseIds = [] := List.isEmpty_iff.mp hemp
        subst this
        simp [filter_not_then_filter]
      · simp [filter_idem]
    · refine ⟨{ db with enrollments :=
        (db.enrollments.filter (fun e => !(e.student_id == studentId)) ++
          courseIds.map (fun cid => ⟨studentId, cid, now⟩)) }, ?_, ?_, ?_⟩
      · simp [replaceStudentCourses, hemp, hvalid]
      · rw [List.filter_append, filter_not_then_filter]
        simp only [List.nil_append]
        apply List.filter_eq_self.mpr
        intro a ha
        obtain ⟨cid, _, hcid⟩ := List.mem_map.mp ha
        subst hcid
        simp
      · rw [List.filter_append, filter_idem]
        have : (courseIds.map (fun cid => (⟨studentId, cid, now⟩ : EnrollmentRow))).filter
            (fun e => !(e.student_id == studentId)) = [] := by
          apply List.filter_eq_nil_iff.mpr
          intro a ha
          obtain ⟨cid, _, hcid⟩ := List.mem_map.mp ha
          subst hcid
          simp
        rw [this, List.append_nil]
  · have hsch : (replaceScheduleForCourse db now courseId entries).1.schedules =
        db.schedules.filter (fun r => !(r.course_id == courseId)) ++
          scheduleRowsFrom db.next_schedule_id now courseId entries := by
      unfold replaceScheduleForCourse deleteScheduleByCourseId
      rw [foldl_createSchedule_schedules]
    refine ⟨?_, ?_, ?_⟩
    · intro r hr hcid
      rw [hsch] at hr
      rcases List.mem_append.mp hr with hr | hr
      · have := (List.mem_filter.mp hr).2
        simp [hcid] at this
      · exact (scheduleRowsFrom_course_id entries db.next_schedule_id now courseId r hr).2
    · rw [hsch, List.filter_append, filter_idem]
      have : (scheduleRowsFrom db.next_schedule_id now courseId entries).filter
          (fun r => !(r.course_id == courseId)) = [] := by
        apply List.filter_eq_nil_iff.mpr
        intro r hr
        have := (scheduleRowsFrom_course_id entries db.next_schedule_id now courseId r hr).1
        simp [this]
      rw [this, List.append_nil]
    · rw [hsch, List.filter_append, filter_not_then_filter]
      have : (scheduleRowsFrom db.next_schedule_id now courseId entries).filter
          (fun r => r.course_id == courseId) =
          scheduleRowsFrom db.next_schedule_id now courseId entries := by
        apply List.filter_eq_self.mpr
        intro r hr
        have := (scheduleRowsFrom_course_id entries db.next_schedule_id now courseId r hr).1
        simp [this]
      rw [List.nil_append, this, scheduleRowsFrom_shape]

/-- Concrete instance of `c3_amended_replace_semantics` at current links
{1, 2} (timestamps 5) replaced by {2, 3} at time 9. -/
theorem c3_amended_replace_semantics_witness :
    (∃ db1, replaceStudentCourses
        ⟨[], [⟨1, "A", "B", none, "1001", none, none, none, some 1, 0⟩],
          [⟨1, "Algo", "CS101", none, none, none, none, some 1, none, none⟩,
            ⟨2, "DS", "CS102", none, none, none, none, some 1, none, none⟩,
            ⟨3, "OS", "CS103", none, none, none, none, some 1, none, none⟩],
          [⟨1, 1, 5⟩, ⟨1, 2, 5⟩], [], 2, 4, 1⟩ 9 1 [2, 3] = .ok db1 ∧
      db1.enrollments.filter (fun e => e.student_id == 1) =
        [2, 3].map (fun cid => ⟨1, cid, 9⟩) ∧
      db1.enrollments.filter (fun e => !(e.student_id == 1)) =
        ([⟨1, 1, 5⟩, ⟨1, 2, 5⟩] : List EnrollmentRow).filter
          (fun e => !(e.student_id == 1))) :=
  (c3_amended_replace_semantics
    ⟨[], [⟨1, "A", "B", none, "1001", none, none, none, some 1, 0⟩],
      [⟨1, "Algo", "CS101", none, none, none, none, some 1, none, none⟩,
        ⟨2, "DS", "CS102", none, none, none, none, some 1, none, none⟩,
        ⟨3, "OS", "CS103", none, none, none, none, some 1, none, none⟩],
      [⟨1, 1, 5⟩, ⟨1, 2, 5⟩], [], 2, 4, 1⟩ 9 1 1 [2, 3] [] (by decide)).1

/-! ## C6 (amended) -/

/-- C6 (amended): relationship pre-validation is all-or-nothing (the error
carries back the untouched store) in both directions, but the two directions
report differently: the course-side `enrollStudents` validates students one
by one and its NotFound error names only the FIRST missing student id
(empty structured list), while the student-side `validateCoursesExist` /
`replaceStudentCourses` path collects and reports EVERY missing course id,
and the same full list flows out of `updateStudent`'s course-list update. -/
theorem c6_amended_missing_reporting
    (db : DB) (now courseId studentId userId m : Nat) (sids cids : List Nat)
    (c : Course) (s : Student) :
    (findCourseById db courseId = some c → c.instructor_id = some userId →
      sids.find? (fun x => (findStudentById db x).isNone) = some m →
      enrollStudents db now courseId sids userId =
        .error (⟨404, "Student with ID " ++ toString m ++ " not found", []⟩, db)) ∧
    ((validateCoursesExist db cids).isValid = false →
      replaceStudentCourses db now studentId cids =
        .error (⟨404, missingCoursesMessage (validateCoursesExist db cids).missingCourseIds,
          (validateCoursesExist db cids).missingCourseIds⟩, db)) ∧
    ((validateCoursesExist db cids).missingCourseIds =
      cids.filter (fun id => !(db.courses.any (fun c => c.course_id == id)))) ∧
    (findStudentById db studentId = some s →
      (validateCoursesExist db cids).isValid = false →
      updateStudent db now studentId { courseIds := some cids } userId "admin" =
        .error (⟨404, missingCoursesMessage (validateCoursesExist db cids).missingCourseIds,
          (validateCoursesExist db cids).missingCourseIds⟩, db)) := by
  have hvalid_ne : (validateCoursesExist db cids).isValid = false → cids.isEmpty = false := by
    intro hval
    cases h : cids.isEmpty
    · rfl
    · rw [validateCoursesExist] at hval
      simp [h] at hval
  refine ⟨?_, ?_, ?_, ?_⟩
  · intro hfind hown hfirst
    simp [enrollStudents, hfind, hown, hfirst]
  · intro hval
    have hne := hvalid_ne hval
    simp [replaceStudentCourses, hval, hne]
  · by_cases h : cids.isEmpty = true
    · rw [List.isEmpty_iff.mp h]
      simp [validateCoursesExist]
    · simp only [Bool.not_eq_true] at h
      simp [validateCoursesExist, h]
  · intro hfind hval
    have hne := hvalid_ne hval
    simp [updateStudent, hfind, hval, hne]

/-- Concrete instances of `c6_amended_missing_reporting`: course 1 owned by
user 1 with students [98, 99] both missing reports only 98; course list
[55, 56] with both courses missing reports the full list [55, 56] from both
`replaceStudentCourses` and `updateStudent`. -/
theorem c6_amended_missing_reporting_witness :
    (enrollStudents
        ⟨[⟨1, "instructor", some 10⟩],
          [⟨1, "A", "B", none, "1001", none, none, none, some 1, 0⟩],
          [⟨1, "Algo", "CS101", none, none, none, none, some 1, none, none⟩],
          [], [], 2, 2, 1⟩ 9 1 [98, 99] 1 =
      .error (⟨404, "Student with ID 98 not found", []⟩,
        ⟨[⟨1, "instructor", some 10⟩],
          [⟨1, "A", "B", none, "1001", none, none, none, some 1, 0⟩],
          [⟨1, "Algo", "CS101", none, none, none, none, some 1, none, none⟩],
          [], [], 2, 2, 1⟩)) ∧
    (updateStudent
        ⟨[⟨1, "instructor", some 10⟩],
          [⟨1, "A", "B", none, "1001", none, none, none, some 1, 0⟩],
          [⟨1, "Algo", "CS101", none, none, none, none, some 1, none, none⟩],
          [], [], 2, 2, 1⟩ 9 1 { courseIds := some [55, 56] } 1 "admin" =
      .error (⟨404, "One or more courses do not exist: 55, 56", [55, 56]⟩,
        ⟨[⟨1, "instructor", some 10⟩],
          [⟨1, "A", "B", none, "1001", none, none, none, some 1, 0⟩],
          [⟨1, "Algo", "CS101", none, none, none, none, some 1, none, none⟩],
          [], [], 2, 2, 1⟩)) := by
  have h := c6_amended_missing_reporting
    ⟨[⟨1, "instructor", some 10⟩],
      [⟨1, "A", "B", none, "1001", none, none, none, some 1, 0⟩],
      [⟨1, "Algo", "CS101", none, none, none, none, some 1, none, none⟩],
      [], [], 2, 2, 1⟩ 9 1 1 1 98 [98, 99] [55, 56]
    ⟨1, "Algo", "CS101", none, none, none, none, some 1, none, none⟩
    ⟨1, "A", "B", none, "1001", none, none, none, some 1, 0⟩
  refine ⟨h.1 (by decide) (by decide) (by decide), ?_⟩
  have h4 := h.2.2.2 (by decide) (by decide)
  simpa using h4

/-! ## C7 (amended) -/

theorem find?_map_ite {α} (p : α → Bool) (g : α → α) (hg : ∀ a, p (g a) = p a) :
    ∀ l : List α, (l.map (fun a => if p a then g a else a)).find? p = (l.find? p).map g := by
  intro l
  induction l with
  | nil => rfl
  | cons a t ih =>
    by_cases h : p a = true
    · simp [List.find?_cons, h, hg]
    · simp only [Bool.not_eq_true] at h
      simp [List.find?_cons, h, hg, ih]

/-- C7 (amended): the non-null-owner invariant holds for Course but not for
Student.  A successful `createCourse` always stores a non-null
`instructor_id` (the creator), and a successful `updateCourse` returns the
course still owned by the caller (`instructor_id` is excluded from the
update).  For Student the invariant fails: besides creation without a
creator (see the counterexample), any principal who passes the authorization
gate can null the owner, because an explicit `createdBy = null` slips past
the ownership-transfer guard and is written to the row. -/
theorem c7_amended_owner_nullability
    (db db1 : DB) (now courseId studentId userId : Nat) (userRole : String)
    (d : CreateCourseInput) (u : UpdateCourseInput) (cNew c c' : Course) (s : Student) :
    (createCourse db now d = .ok (db1, cNew) → ∃ v, cNew.instructor_id = some v) ∧
    (findCourseById db courseId = some c →
      updateCourse db now courseId u userId = .ok (db1, c') →
      c'.instructor_id = some userId) ∧
    (findStudentById db studentId = some s → s.created_by = some userId →
      ∃ db2 s1, updateStudent db now studentId { createdBy := some none } userId userRole =
          .ok (db2, s1) ∧ s1.created_by = none ∧ findStudentById db2 studentId = some s1) := by
  refine ⟨?_, ?_, ?_⟩
  · intro hok
    unfold createCourse at hok
    have hmain : truthyId d.createdBy = true ∧
        cNew.instructor_id = jsOrNullId d.createdBy := by
      split at hok
      · exact absurd hok (by simp)
      · rename_i htruthy
        have ht : truthyId d.createdBy = true := by
          cases hb : truthyId d.createdBy
          · rw [hb] at htruthy; simp at htruthy
          · rfl
        refine ⟨ht, ?_⟩
        split at hok
        · exact absurd hok (by simp)
        · split at hok
          · exact absurd hok (by simp)
          · split at hok
            · exact absurd hok (by simp)
            · split at hok
              · exact absurd hok (by simp)
              · split at hok
                · exact absurd hok (by simp)
                · split at hok <;>
                    (simp only [] at hok
                     split at hok <;>
                       first
                         | exact Except.noConfusion hok
                         | (simp only [Except.ok.injEq, Prod.mk.injEq] at hok
                            obtain ⟨-, hc⟩ := hok
                            rw [← hc]))
    obtain ⟨ht, hinst⟩ := hmain
    cases hcb : d.createdBy with
    | none => rw [hcb] at ht; exact absurd ht (by simp [truthyId])
    | some v =>
      refine ⟨v, ?_⟩
      rw [hcb] at ht
      rw [hinst, hcb]
      simp [jsOrNullId, ht]
  · intro hfind hok
    unfold updateCourse at hok
    split at hok
    · rename_i heq
      rw [hfind] at heq
      cases heq
    · rename_i existingCourse heq
      rw [hfind] at heq
      obtain rfl : c = existingCourse := by
        simpa using heq
      split at hok
      · exact absurd hok (by simp)
      · split at hok
        · exact absurd hok (by simp)
        · rename_i hown _
          cases hcc : courseCodeConflict db c u.courseCode userId with
          | some e =>
            rw [hcc] at hok
            exact absurd hok (by simp)
          | none =>
            rw [hcc] at hok
            simp only [Except.ok.injEq, Prod.mk.injEq] at hok
            obtain ⟨-, hc⟩ := hok
            have hupd : findCourseById (courseModelUpdateCourse db courseId
                { course_name := u.courseName
                  course_code := u.courseCode
                  description := u.description
                  weekly_hours := u.weeklyHours
                  academic_year := u.academicYear
                  course_category := u.courseCategory
                  instructor_id := none
                  room_number := u.roomNumber
                  semester := u.semester }) courseId = some (applyCourseUpdate c
                { course_name := u.courseName
                  course_code := u.courseCode
                  description := u.description
                  weekly_hours := u.weeklyHours
                  academic_year := u.academicYear
                  course_category := u.courseCategory
                  instructor_id := none
                  room_number := u.roomNumber
                  semester := u.semester }) := by
              unfold findCourseById courseModelUpdateCourse
              rw [find?_map_ite (fun x => x.course_id == courseId)
                (fun x => applyCourseUpdate x _) (fun a => by simp [applyCourseUpdate])]
              rw [show db.courses.find? (fun x => x.course_id == courseId) = some c from hfind]
              rfl
            rw [hupd] at hc
            subst hc
            simp only [Option.getD_some, applyCourseUpdate, Option.getD_none]
            simpa using hown
  · intro hfind hown
    have hupd : findStudentById (studentModelUpdateStudent db studentId
        { created_by := some none }) studentId = some (applyStudentUpdate s
        { created_by := some none }) := by
      unfold findStudentById studentModelUpdateStudent
      rw [find?_map_ite (fun x => x.student_id == studentId)
        (fun x => applyStudentUpdate x _) (fun a => by simp [applyStudentUpdate])]
      rw [show db.students.find? (fun x => x.student_id == studentId) = some s from hfind]
      rfl
    refine ⟨studentModelUpdateStudent db studentId { created_by := some none },
      applyStudentUpdate s { created_by := some none }, ?_, ?_, ?_⟩
    · simp [updateStudent, hfind, hown, hupd]
    · simp [applyStudentUpdate]
    · exact hupd

/-- Concrete instance of `c7_amended_owner_nullability`: the instructor who
owns student 1 updates it with an explicit null `createdBy`; the call
succeeds and the stored row's owner becomes null. -/
theorem c7_amended_owner_nullability_witness :
    ∃ db2 s1, updateStudent
        ⟨[⟨1, "instructor", some 10⟩],
          [⟨1, "A", "B", none, "1001", none, none, none, some 1, 0⟩],
          [], [], [], 2, 1, 1⟩ 9 1 { createdBy := some none } 1 "instructor" =
        .ok (db2, s1) ∧ s1.created_by = none ∧
      findStudentById db2 1 = some s1 :=
  (c7_amended_owner_nullability
    ⟨[⟨1, "instructor", some 10⟩],
      [⟨1, "A", "B", none, "1001", none, none, none, some 1, 0⟩],
      [], [], [], 2, 1, 1⟩
    ⟨[], [], [], [], [], 1, 1, 1⟩ 9 1 1 1 "instructor"
    { courseName := "", courseCode := "" } {}
    ⟨0, "", "", none, none, none, none, none, none, none⟩
    ⟨0, "", "", none, none, none, none, none, none, none⟩
    ⟨0, "", "", none, none, none, none, none, none, none⟩
    ⟨1, "A", "B", none, "1001", none, none, none, some 1, 0⟩).2.2
    (by decide) (by decide)

/-! ## C5 (amended) -/

theorem truthyId_none : truthyId none = false := rfl

theorem truthyId_some (v : Nat) : truthyId (some v) = (v != 0) := rfl

/-- C5 (amended): the unknown-tenant fallback is asymmetric.  For Courses the
guard does fall back to a global (unscoped) duplicate-code lookup when the
creator / caller has no truthy university: creation and key-changing update
are rejected with the global Conflict whenever any course carries the code.
For Students the guard is skipped entirely when no university id is
resolvable: creation (with no tenant and no creator) and a key-changing
update (with no tenant to check against) always pass the uniqueness stage,
whatever duplicates exist. -/
theorem c5_amended_fallback_behaviour
    (db : DB) (now courseId studentId userId : Nat)
    (d : CreateCourseInput) (d2 : CreateStudentInput)
    (u : UpdateCourseInput) (u2 : UpdateStudentInput)
    (creator instr : User) (c : Course) (s : Student) (code : String) :
    (truthyId d.createdBy = true →
      findUserById db (d.createdBy.getD 0) = some creator →
      (creator.role = "instructor" ∨ creator.role = "admin") →
      truthyId creator.university_id = false →
      (findCourseByCode db d.courseCode none).isSome = true →
      createCourse db now d =
        .error (⟨409, "Course with this course code already exists", []⟩, db)) ∧
    (findCourseById db courseId = some c → c.instructor_id = some userId →
      u.instructorId = none → u.courseCode = some code →
      code ≠ "" → code ≠ c.course_code →
      findUserById db userId = some instr →
      truthyId instr.university_id = false →
      (findCourseByCode db code none).isSome = true →
      updateCourse db now courseId u userId =
        .error (⟨409, "Course with this course code already exists", []⟩, db)) ∧
    (truthyId d2.universityId = false → d2.createdBy = none → d2.courseIds = none →
      errOf (createStudent db now d2) = none) ∧
    (findStudentById db studentId = some s →
      truthyId (match u2.universityId with
        | none => s.university_id
        | some x => x) = false →
      u2.createdBy = none → u2.courseIds = none →
      errOf (updateStudent db now studentId u2 userId "admin") = none) := by
  refine ⟨?_, ?_, ?_, ?_⟩
  · intro ht hcreator hrole huni hsome
    rcases hrole with h | h <;>
      simp [createCourse, ht, hcreator, h, huni, hsome]
  · intro hfind hown hinstr hcode hne1 hne2 hinstrfind huni hsome
    have hcc : courseCodeConflict db c u.courseCode userId =
        some ⟨409, "Course with this course code already exists", []⟩ := by
      simp [courseCodeConflict, hcode, hne1, hne2, hinstrfind, huni, hsome]
    simp [updateCourse, hfind, hown, hinstr, hcc]
  · intro huni hcb hcrs
    simp [createStudent, errOf, truthyId_none, huni, hcb, hcrs]
  · intro hfind huni hcb hcrs
    cases hsn : u2.studentNumber with
    | none =>
      cases huv : u2.universityId with
      | none =>
        rw [huv] at huni
        simp [updateStudent, errOf, truthyId_none, hfind, hcb, hcrs, hsn, huv, huni]
      | some uv =>
        rw [huv] at huni
        simp [updateStudent, errOf, truthyId_none, hfind, hcb, hcrs, hsn, huv, huni]
    | some sn =>
      cases huv : u2.universityId with
      | none =>
        rw [huv] at huni
        simp [updateStudent, errOf, truthyId_none, hfind, hcb, hcrs, hsn, huv, huni]
      | some uv =>
        rw [huv] at huni
        simp [updateStudent, errOf, truthyId_none, hfind, hcb, hcrs, hsn, huv, huni]

/-- Concrete instances of `c5_amended_fallback_behaviour`: a creator with no
university is caught by the global course-code check (409), while a student
create with no resolvable tenant sails past an existing duplicate number. -/
theorem c5_amended_fallback_behaviour_witness :
    (createCourse
        ⟨[⟨3, "instructor", none⟩], [],
          [⟨1, "Algo", "CS101", none, none, none, none, some 9, none, none⟩],
          [], [], 1, 2, 1⟩ 9
        { courseName := "Again", courseCode := "CS101", createdBy := some 3 } =
      .error (⟨409, "Course with this course code already exists", []⟩,
        ⟨[⟨3, "instructor", none⟩], [],
          [⟨1, "Algo", "CS101", none, none, none, none, some 9, none, none⟩],
          [], [], 1, 2, 1⟩)) ∧
    (errOf (createStudent
        ⟨[⟨3, "instructor", none⟩], [],
          [⟨1, "Algo", "CS101", none, none, none, none, some 9, none, none⟩],
          [], [], 1, 2, 1⟩ 9
        { name := "X", surname := "Y", studentNumber := "1001" }) = none) := by
  have h := c5_amended_fallback_behaviour
    ⟨[⟨3, "instructor", none⟩], [],
      [⟨1, "Algo", "CS101", none, none, none, none, some 9, none, none⟩],
      [], [], 1, 2, 1⟩ 9 1 1 1
    { courseName := "Again", courseCode := "CS101", createdBy := some 3 }
    { name := "X", surname := "Y", studentNumber := "1001" } {} {}
    ⟨3, "instructor", none⟩ ⟨3, "instructor", none⟩
    ⟨1, "Algo", "CS101", none, none, none, none, some 9, none, none⟩
    ⟨0, "", "", none, "", none, none, none, none, 0⟩ ""
  exact ⟨h.1 (by decide) (by decide) (Or.inl rfl) (by decide) (by decide),
    h.2.2.1 (by decide) (by decide) (by decide)⟩

/-! ## C1 (amended) -/

theorem replaceStudentCourses_error_status (db : DB) (now sid : Nat) (cids : List Nat)
    (p : ApiError × DB) (h : replaceStudentCourses db now sid cids = .error p) :
    p.1.statusCode = 404 := by
  unfold replaceStudentCourses at h
  split at h
  · simp only [Except.error.injEq] at h
    rw [← h]
  · split at h <;> exact Except.noConfusion h

theorem courseCodeConflict_status (db : DB) (c : Course) (oc : Option String) (uid : Nat)
    (e : ApiError) (h : courseCodeConflict db c oc uid = some e) : e.statusCode = 409 := by
  unfold courseCodeConflict at h
  repeat' split at h
  all_goals
    first
      | exact Option.noConfusion h
      | (simp only [Option.some.injEq] at h; rw [← h])

/-- C1 (amended): the ownership gates split by resource kind.  For Student
update/delete the gate is role-aware: the operation is rejected with the
ownership Forbidden error exactly when the caller is not an admin AND does
not own (did not create) the student — so an admin passes regardless of
ownership.  For Course update/delete the gate is pure ownership with NO admin
exception: the operation is rejected with the ownership Forbidden error
exactly when `instructor_id` differs from the caller's id, whatever the
caller's role. -/
theorem c1_amended_ownership_gate
    (db : DB) (now courseId studentId userId : Nat) (userRole : String)
    (uc : UpdateCourseInput) (us : UpdateStudentInput) (c : Course) (s : Student) :
    (findStudentById db studentId = some s →
      ((userRole ≠ "admin" ∧ s.created_by ≠ some userId) ↔
        updateStudent db now studentId us userId userRole =
          .error (⟨403, "You do not have permission to update this student", []⟩, db))) ∧
    (findStudentById db studentId = some s →
      ((userRole ≠ "admin" ∧ s.created_by ≠ some userId) ↔
        deleteStudent db studentId userId userRole =
          .error (⟨403, "You do not have permission to delete this student", []⟩, db))) ∧
    (findCourseById db courseId = some c →
      (c.instructor_id ≠ some userId ↔
        updateCourse db now courseId uc userId =
          .error (⟨403, "You do not have permission to update this course", []⟩, db))) ∧
    (findCourseById db courseId = some c →
      (c.instructor_id ≠ some userId ↔
        deleteCourse db courseId userId =
          .error (⟨403, "You do not have permission to delete this course", []⟩, db))) := by
  refine ⟨?_, ?_, ?_, ?_⟩
  · intro hfind
    constructor
    · rintro ⟨hrole, hown⟩
      simp [updateStudent, hfind, hrole, hown]
    · intro hres
      by_contra hncond
      rw [not_and_or] at hncond
      have hgate : (userRole != "admin" && s.created_by != some userId) = false := by
        rcases hncond with h | h
        · rw [not_not] at h
          simp [h]
        · rw [not_not] at h
          simp [h]
      unfold updateStudent at hres
      rw [hfind] at hres
      simp only [hgate] at hres
      split at hres
      · rename_i hcontra
        simp at hcontra
      · split at hres
        · simp at hres
        · split at hres
          · simp at hres
          · split at hres
            · simp at hres
            · split at hres
              · simp at hres
              · split at hres
                · split at hres
                  · rename_i p heq
                    have h404 := replaceStudentCourses_error_status _ _ _ _ _ heq
                    simp only [Except.error.injEq] at hres
                    rw [hres] at h404
                    simp at h404
                  · simp at hres
                · simp at hres
  · intro hfind
    constructor
    · rintro ⟨hrole, hown⟩
      simp [deleteStudent, hfind, hrole, hown]
    · intro hres
      by_contra hncond
      rw [not_and_or] at hncond
      have hgate : (userRole != "admin" && s.created_by != some userId) = false := by
        rcases hncond with h | h
        · rw [not_not] at h
          simp [h]
        · rw [not_not] at h
          simp [h]
      unfold deleteStudent at hres
      rw [hfind] at hres
      simp only [hgate] at hres
      split at hres
      · rename_i hcontra
        simp at hcontra
      · split at hres
        · simp at hres
        · simp at hres
  · intro hfind
    constructor
    · intro hown
      simp [updateCourse, hfind, hown]
    · intro hres
      by_contra hncond
      have hgate : (c.instructor_id != some userId) = false := by simp [hncond]
      unfold updateCourse at hres
      rw [hfind] at hres
      simp only [hgate] at hres
      split at hres
      · rename_i hcontra
        simp at hcontra
      · split at hres
        · simp at hres
        · rcases hcc : courseCodeConflict db c uc.courseCode userId with _ | e
          · rw [hcc] at hres
            simp at hres
          · rw [hcc] at hres
            have h409 := courseCodeConflict_status _ _ _ _ _ hcc
            simp only [Except.error.injEq, Prod.mk.injEq] at hres
            rw [hres.1] at h409
            simp at h409
  · intro hfind
    constructor
    · intro hown
      simp [deleteCourse, hfind, hown]
    · intro hres
      by_contra hncond
      have hgate : (c.instructor_id != some userId) = false := by simp [hncond]
      unfold deleteCourse at hres
      rw [hfind] at hres
      simp only [hgate] at hres
      split at hres
      · rename_i hcontra
        simp at hcontra
      · split at hres
        · simp at hres
        · simp at hres

/-- Concrete instances of `c1_amended_ownership_gate`: instructor 2 neither
admin nor owner is denied the student update (403), while the same ownership
test on the course side rejects exactly the non-owner. -/
theorem c1_amended_ownership_gate_witness :
    ((("instructor" : String) ≠ "admin" ∧ (some 1 : Option Nat) ≠ some 2) ↔
      updateStudent
        ⟨[⟨1, "instructor", some 10⟩, ⟨2, "instructor", some 10⟩],
          [⟨1, "A", "B", none, "1001", none, none, none, some 1, 0⟩],
          [], [], [], 2, 1, 1⟩ 9 1 {} 2 "instructor" =
        .error (⟨403, "You do not have permission to update this student", []⟩,
          ⟨[⟨1, "instructor", some 10⟩, ⟨2, "instructor", some 10⟩],
            [⟨1, "A", "B", none, "1001", none, none, none, some 1, 0⟩],
            [], [], [], 2, 1, 1⟩)) ∧
    ((some 1 : Option Nat) ≠ some 2 ↔
      deleteCourse
        ⟨[⟨1, "instructor", some 10⟩, ⟨2, "instructor", some 10⟩], [],
          [⟨1, "Algo", "CS101", none, none, none, none, some 1, none, none⟩],
          [], [], 1, 2, 1⟩ 1 2 =
        .error (⟨403, "You do not have permission to delete this course", []⟩,
          ⟨[⟨1, "instructor", some 10⟩, ⟨2, "instructor", some 10⟩], [],
            [⟨1, "Algo", "CS101", none, none, none, none, some 1, none, none⟩],
            [], [], 1, 2, 1⟩)) := by
  have h := c1_amended_ownership_gate
    ⟨[⟨1, "instructor", some 10⟩, ⟨2, "instructor", some 10⟩],
      [⟨1, "A", "B", none, "1001", none, none, none, some 1, 0⟩],
      [], [], [], 2, 1, 1⟩ 9 1 1 2 "instructor" {} {}
    ⟨0, "", "", none, none, none, none, none, none, none⟩
    ⟨1, "A", "B", none, "1001", none, none, none, some 1, 0⟩
  have h2 := c1_amended_ownership_gate
    ⟨[⟨1, "instructor", some 10⟩, ⟨2, "instructor", some 10⟩], [],
      [⟨1, "Algo", "CS101", none, none, none, none, some 1, none, none⟩],
      [], [], 1, 2, 1⟩ 9 1 1 2 "instructor" {} {}
    ⟨1, "Algo", "CS101", none, none, none, none, some 1, none, none⟩
    ⟨0, "", "", none, "", none, none, none, none, 0⟩
  exact ⟨h.1 (by decide), h2.2.2.2 (by decide)⟩

/-! ## C2 (amended) -/

/-- C2 (amended): owner-change policy by resource kind.  For Student: a
non-admin proposing a non-null `createdBy` different from the current owner
is rejected with the distinct transfer-Forbidden error even when they own the
student, while an admin's proposed owner change succeeds and the new owner is
stored.  For Course: a proposed `instructorId` different from the caller is
rejected with the transfer-Forbidden error for every caller (role is never
consulted), and no successful `updateCourse` ever changes the stored
`instructor_id` — not even an admin can reassign a course. -/
theorem c2_amended_owner_change_policy
    (db db2 : DB) (now courseId studentId userId v w : Nat) (userRole : String)
    (uc : UpdateCourseInput) (us : UpdateStudentInput) (c c2 : Course) (s : Student) :
    (findStudentById db studentId = some s → userRole ≠ "admin" →
      s.created_by = some userId → us.createdBy = some (some v) →
      some v ≠ s.created_by →
      updateStudent db now studentId us userId userRole =
        .error (⟨403, "You cannot change the student owner. You can only update students you created.", []⟩, db)) ∧
    (findStudentById db studentId = some s →
      ∃ dbA s1, updateStudent db now studentId { createdBy := some (some v) } userId "admin" =
        .ok (dbA, s1) ∧ s1.created_by = some v ∧ findStudentById dbA studentId = some s1) ∧
    (findCourseById db courseId = some c → c.instructor_id = some userId →
      uc.instructorId = some (some w) → w ≠ userId →
      updateCourse db now courseId uc userId =
        .error (⟨403, "You cannot change the course owner. You can only update courses you created.", []⟩, db)) ∧
    (findCourseById db courseId = some c →
      updateCourse db now courseId uc userId = .ok (db2, c2) →
      c2.instructor_id = c.instructor_id) := by
  refine ⟨?_, ?_, ?_, ?_⟩
  · intro hfind hrole hown hcb hne
    rw [hown] at hne
    simp [updateStudent, hfind, hown, hrole, hcb, hne]
  · intro hfind
    have hupd : findStudentById (studentModelUpdateStudent db studentId
        { created_by := some (some v) }) studentId = some (applyStudentUpdate s
        { created_by := some (some v) }) := by
      unfold findStudentById studentModelUpdateStudent
      rw [find?_map_ite (fun x => x.student_id == studentId)
        (fun x => applyStudentUpdate x _) (fun a => by simp [applyStudentUpdate])]
      rw [show db.students.find? (fun x => x.student_id == studentId) = some s from hfind]
      rfl
    refine ⟨studentModelUpdateStudent db studentId { created_by := some (some v) },
      applyStudentUpdate s { created_by := some (some v) }, ?_, ?_, ?_⟩
    · simp [updateStudent, hfind, hupd]
    · simp [applyStudentUpdate]
    · exact hupd
  · intro hfind hown hcbi hne
    simp [updateCourse, hfind, hown, hcbi, hne]
  · intro hfind hok
    unfold updateCourse at hok
    split at hok
    · rename_i heq
      rw [hfind] at heq
      cases heq
    · rename_i existingCourse heq
      rw [hfind] at heq
      obtain rfl : c = existingCourse := by
        simpa using heq
      split at hok
      · exact absurd hok (by simp)
      · split at hok
        · exact absurd hok (by simp)
        · cases hcc : courseCodeConflict db c uc.courseCode userId with
          | some e =>
            rw [hcc] at hok
            exact absurd hok (by simp)
          | none =>
            rw [hcc] at hok
            simp only [Except.ok.injEq, Prod.mk.injEq] at hok
            obtain ⟨-, hc⟩ := hok
            have hupd : findCourseById (courseModelUpdateCourse db courseId
                { course_name := uc.courseName
                  course_code := uc.courseCode
                  description := uc.description
                  weekly_hours := uc.weeklyHours
                  academic_year := uc.academicYear
                  course_category := uc.courseCategory
                  instructor_id := none
                  room_number := uc.roomNumber
                  semester := uc.semester }) courseId = some (applyCourseUpdate c
                { course_name := uc.courseName
                  course_code := uc.courseCode
                  description := uc.description
                  weekly_hours := uc.weeklyHours
                  academic_year := uc.academicYear
                  course_category := uc.courseCategory
                  instructor_id := none
                  room_number := uc.roomNumber
                  semester := uc.semester }) := by
              unfold findCourseById courseModelUpdateCourse
              rw [find?_map_ite (fun x => x.course_id == courseId)
                (fun x => applyCourseUpdate x _) (fun a => by simp [applyCourseUpdate])]
              rw [show db.courses.find? (fun x => x.course_id == courseId) = some c from hfind]
              rfl
            rw [hupd] at hc
            rw [← hc]
            simp [applyCourseUpdate]

/-- Concrete instances of `c2_amended_owner_change_policy`: the owning
instructor's attempt to reassign student 1 to user 5 is rejected with the
transfer-Forbidden error, while an admin's reassignment succeeds and stores
the new owner. -/
theorem c2_amended_owner_change_policy_witness :
    (updateStudent
        ⟨[⟨1, "instructor", some 10⟩],
          [⟨1, "A", "B", none, "1001", none, none, none, some 1, 0⟩],
          [], [], [], 2, 1, 1⟩ 9 1 { createdBy := some (some 5) } 1 "instructor" =
      .error (⟨403, "You cannot change the student owner. You can only update students you created.", []⟩,
        ⟨[⟨1, "instructor", some 10⟩],
          [⟨1, "A", "B", none, "1001", none, none, none, some 1, 0⟩],
          [], [], [], 2, 1, 1⟩)) ∧
    (∃ dbA s1, updateStudent
        ⟨[⟨1, "instructor", some 10⟩],
          [⟨1, "A", "B", none, "1001", none, none, none, some 1, 0⟩],
          [], [], [], 2, 1, 1⟩ 9 1 { createdBy := some (some 5) } 7 "admin" =
        .ok (dbA, s1) ∧ s1.created_by = some 5 ∧ findStudentById dbA 1 = some s1) := by
  have h := c2_amended_owner_change_policy
    ⟨[⟨1, "instructor", some 10⟩],
      [⟨1, "A", "B", none, "1001", none, none, none, some 1, 0⟩],
      [], [], [], 2, 1, 1⟩
    ⟨[], [], [], [], [], 1, 1, 1⟩ 9 1 1 1 5 0 "instructor" {}
    { createdBy := some (some 5) }
    ⟨0, "", "", none, none, none, none, none, none, none⟩
    ⟨0, "", "", none, none, none, none, none, none, none⟩
    ⟨1, "A", "B", none, "1001", none, none, none, some 1, 0⟩
  have h2 := c2_amended_owner_change_policy
    ⟨[⟨1, "instructor", some 10⟩],
      [⟨1, "A", "B", none, "1001", none, none, none, some 1, 0⟩],
      [], [], [], 2, 1, 1⟩
    ⟨[], [], [], [], [], 1, 1, 1⟩ 9 1 1 7 5 0 "admin" {}
    { createdBy := some (some 5) }
    ⟨0, "", "", none, none, none, none, none, none, none⟩
    ⟨0, "", "", none, none, none, none, none, none, none⟩
    ⟨1, "A", "B", none, "1001", none, none, none, some 1, 0⟩
  exact ⟨h.1 (by decide) (by decide) (by decide) (by decide) (by decide),
    h2.2.1 (by decide)⟩

/-! ## C4 -/

/-- Two instructors, user 1 in tenant `t1` and user 2 in tenant `t2`. -/
def c4dbU (t1 t2 : Nat) : List User :=
  [⟨1, "instructor", some t1⟩, ⟨2, "instructor", some t2⟩]

/-- C4: tenant-scoped uniqueness of human-chosen keys.  Starting from a store
with an instructor in each of two distinct tenants and no records, creating a
Student with number `k` under tenant `t1` succeeds, creating one with the
same number under tenant `t2` also succeeds, and a second creation under
`t1` fails with Conflict (409); likewise creating a Course with code `k` by
the tenant-`t1` instructor succeeds, the tenant-`t2` instructor can reuse the
code, and a second creation by the tenant-`t1` instructor fails with
Conflict (409).  Failing calls leave the store unchanged. -/
theorem c4_tenant_scoped_uniqueness (t1 t2 now : Nat) (k : String)
    (ht1 : t1 ≠ 0) (ht2 : t2 ≠ 0) (hne : t1 ≠ t2) :
    (createStudent ⟨c4dbU t1 t2, [], [], [], [], 1, 1, 1⟩ now
        { name := "", surname := "", universityId := some t1, studentNumber := k } =
      .ok (⟨c4dbU t1 t2, [⟨1, "", "", some t1, k, none, none, none, none, now⟩],
          [], [], [], 2, 1, 1⟩,
        ⟨1, "", "", some t1, k, none, none, none, none, now⟩)) ∧
    (createStudent ⟨c4dbU t1 t2, [⟨1, "", "", some t1, k, none, none, none, none, now⟩],
          [], [], [], 2, 1, 1⟩ now
        { name := "", surname := "", universityId := some t2, studentNumber := k } =
      .ok (⟨c4dbU t1 t2, [⟨1, "", "", some t1, k, none, none, none, none, now⟩,
            ⟨2, "", "", some t2, k, none, none, none, none, now⟩], [], [], [], 3, 1, 1⟩,
        ⟨2, "", "", some t2, k, none, none, none, none, now⟩)) ∧
    (createStudent ⟨c4dbU t1 t2, [⟨1, "", "", some t1, k, none, none, none, none, now⟩,
          ⟨2, "", "", some t2, k, none, none, none, none, now⟩], [], [], [], 3, 1, 1⟩ now
        { name := "", surname := "", universityId := some t1, studentNumber := k } =
      .error (⟨409, "Student with this student number in this university already exists", []⟩,
        ⟨c4dbU t1 t2, [⟨1, "", "", some t1, k, none, none, none, none, now⟩,
          ⟨2, "", "", some t2, k, none, none, none, none, now⟩], [], [], [], 3, 1, 1⟩)) ∧
    (createCourse ⟨c4dbU t1 t2, [], [], [], [], 1, 1, 1⟩ now
        { courseName := "", courseCode := k, createdBy := some 1 } =
      .ok (⟨c4dbU t1 t2, [], [⟨1, "", k, none, none, none, none, some 1, none, none⟩],
          [], [], 1, 2, 1⟩,
        ⟨1, "", k, none, none, none, none, some 1, none, none⟩)) ∧
    (createCourse ⟨c4dbU t1 t2, [], [⟨1, "", k, none, none, none, none, some 1, none, none⟩],
          [], [], 1, 2, 1⟩ now
        { courseName := "", courseCode := k, createdBy := some 2 } =
      .ok (⟨c4dbU t1 t2, [], [⟨1, "", k, none, none, none, none, some 1, none, none⟩,
            ⟨2, "", k, none, none, none, none, some 2, none, none⟩], [], [], 1, 3, 1⟩,
        ⟨2, "", k, none, none, none, none, some 2, none, none⟩)) ∧
    (createCourse ⟨c4dbU t1 t2, [], [⟨1, "", k, none, none, none, none, some 1, none, none⟩,
          ⟨2, "", k, none, none, none, none, some 2, none, none⟩], [], [], 1, 3, 1⟩ now
        { courseName := "", courseCode := k, createdBy := some 1 } =
      .error (⟨409, "Course with this course code already exists for your university", []⟩,
        ⟨c4dbU t1 t2, [], [⟨1, "", k, none, none, none, none, some 1, none, none⟩,
          ⟨2, "", k, none, none, none, none, some 2, none, none⟩], [], [], 1, 3, 1⟩)) := by
  refine ⟨?_, ?_, ?_, ?_, ?_, ?_⟩
  · simp [createStudent, c4dbU, findStudentByStudentNumberAndUniversityId, findUserById,
      jsOrNullId, jsOrNullStr, truthyId, truthyStr, ht1]
  · simp [createStudent, c4dbU, findStudentByStudentNumberAndUniversityId, findUserById,
      jsOrNullId, jsOrNullStr, truthyId, truthyStr, ht2, hne, Ne.symm hne]
  · simp [createStudent, c4dbU, findStudentByStudentNumberAndUniversityId, findUserById,
      jsOrNullId, jsOrNullStr, truthyId, truthyStr, ht1]
  · simp [createCourse, c4dbU, findCourseByCode, findUserById, findStudentById, enrollEach,
      jsOrNullId, jsOrNullStr, truthyId, truthyStr, ht1]
  · simp [createCourse, c4dbU, findCourseByCode, findUserById, findStudentById, enrollEach,
      jsOrNullId, jsOrNullStr, truthyId, truthyStr, ht2, hne, Ne.symm hne]
  · simp [createCourse, c4dbU, findCourseByCode, findUserById, findStudentById, enrollEach,
      jsOrNullId, jsOrNullStr, truthyId, truthyStr, ht1]

/-- Concrete instance of `c4_tenant_scoped_uniqueness` at tenants 1 and 2 and
key "1001": both cross-tenant creations succeed and the duplicate creations
under tenant 1 are rejected with 409. -/
theorem c4_tenant_scoped_uniqueness_witness :
    (createStudent ⟨c4dbU 1 2, [⟨1, "", "", some 1, "1001", none, none, none, none, 9⟩,
          ⟨2, "", "", some 2, "1001", none, none, none, none, 9⟩], [], [], [], 3, 1, 1⟩ 9
        { name := "", surname := "", universityId := some 1, studentNumber := "1001" } =
      .error (⟨409, "Student with this student number in this university already exists", []⟩,
        ⟨c4dbU 1 2, [⟨1, "", "", some 1, "1001", none, none, none, none, 9⟩,
          ⟨2, "", "", some 2, "1001", none, none, none, none, 9⟩], [], [], [], 3, 1, 1⟩)) ∧
    (createCourse ⟨c4dbU 1 2, [], [⟨1, "", "1001", none, none, none, none, some 1, none, none⟩,
          ⟨2, "", "1001", none, none, none, none, some 2, none, none⟩], [], [], 1, 3, 1⟩ 9
        { courseName := "", courseCode := "1001", createdBy := some 1 } =
      .error (⟨409, "Course with this course code already exists for your university", []⟩,
        ⟨c4dbU 1 2, [], [⟨1, "", "1001", none, none, none, none, some 1, none, none⟩,
          ⟨2, "", "1001", none, none, none, none, some 2, none, none⟩], [], [], 1, 3, 1⟩)) := by
  have h := c4_tenant_scoped_uniqueness 1 2 9 "1001" (by decide) (by decide) (by decide)
  exact ⟨h.2.2.1, h.2.2.2.2.2⟩

end Attendify
